import Mathlib

/-!
Shallow embedding of `auto_slicer/slice_stl.py` (the slicing-orchestration and
support-material heuristic core) and proofs about it.

Modelling conventions:
- Python text is represented as `List Char`; a gcode file is a `List (List Char)`
  of its lines.
- Python `float` values are modelled exactly as rationals (`ℚ`); the source only
  ever parses decimal numerals matched by `[\d.]+` and multiplies/divides them,
  so the rational semantics coincides with the intended real-number reading.
- Functions that can raise return `Except PyErr α`; each `PyErr` constructor
  records which Python exception site it stands for.
- The external slicer process is an oracle value (`SliceOutcome`) giving the
  exit status, the captured stdout, and the gcode the process writes to the
  requested output path on success.  The filesystem is a map from paths to
  file contents.
-/

namespace AutoSlicer

/-- Python exceptions that the modelled code can raise.
`profileIncomplete` is the `ValueError` from `estimate_nozzle_and_layer_height`
("Could not estimate nozzle diameter or layer height..."), `zeroVolume` the
`ValueError` from `estimate_fraction_of_support_material` ("Total volume is
zero..."), `floatParse` a `ValueError` raised by `float()` on a malformed
numeral, `substrNotFound` the `ValueError` raised by `str.index` when the
substring is absent, and `exhaustedSearch` the `RuntimeError` raised by
`slice_stl_brute_force_rotation_no_support` after all rotations fail. -/
inductive PyErr where
  | profileIncomplete
  | zeroVolume
  | floatParse
  | substrNotFound
  | exhaustedSearch
  deriving DecidableEq, Repr

/-- Python whitespace, as recognised by `str.strip()` and by the regex class
`\s` on ASCII text. -/
def pySpace (c : Char) : Bool :=
  c = ' ' || c = '\t' || c = '\n' || c = '\r' || c = '\x0b' || c = '\x0c'

/-- Characters matched by the regex class `[\d.]`. -/
def isDigitDot (c : Char) : Bool := c.isDigit || c = '.'

/-- `str.strip()`: remove leading and trailing whitespace. -/
def pyStrip (l : List Char) : List Char :=
  ((l.dropWhile pySpace).reverse.dropWhile pySpace).reverse

/-- Value of a string of decimal digits. -/
def digitsToNat (ds : List Char) : Nat :=
  ds.foldl (fun a c => 10 * a + (c.toNat - 48)) 0

/-- Python `float()` restricted to strings drawn from `[\d.]+` (the only shape
the source ever feeds it): at most one dot and at least one digit, otherwise
`float` raises `ValueError` (e.g. on `"1.2.3"` or `"."`). -/
def pyFloat? (s : List Char) : Option ℚ :=
  let ip := s.takeWhile Char.isDigit
  let rest := s.dropWhile Char.isDigit
  match rest with
  | [] => if ip = [] then none else some (digitsToNat ip : ℚ)
  | '.' :: frac =>
      if frac.all Char.isDigit ∧ (ip ≠ [] ∨ frac ≠ []) then
        some ((digitsToNat ip : ℚ) + (digitsToNat frac : ℚ) / (10 ^ frac.length : ℚ))
      else none
  | _ => none

/-- Python substring test `needle in hay`. -/
def containsSub : List Char → List Char → Bool
  | [], needle => needle.isEmpty
  | h :: t, needle => needle.isPrefixOf (h :: t) || containsSub t needle

/-- Python `hay.index(needle)`: index of the leftmost occurrence, `none` when
absent (where `str.index` raises `ValueError`). -/
def findSub : List Char → List Char → Option Nat
  | [], needle => if needle.isEmpty then some 0 else none
  | h :: t, needle =>
      if needle.isPrefixOf (h :: t) then some 0
      else (findSub t needle).map (· + 1)

/-- Case-insensitive literal match: if `l` starts with the (lowercase) literal
`key` up to case, return the remainder of `l`. -/
def ciDropLit : List Char → List Char → Option (List Char)
  | [], l => some l
  | _ :: _, [] => none
  | k :: ks, c :: cs => if c.toLower = k then ciDropLit ks cs else none

/-- Matcher for the part of the profile-comment regex after the `;`:
`\s*<key>\s*=\s*([\d.]+)` with `re.IGNORECASE`; returns the text captured by
the group.  Greedy `\s*` needs no backtracking here because every following
literal starts with a non-space character. -/
def profileAfterSemi (key : List Char) (l : List Char) : Option (List Char) :=
  match ciDropLit key (l.dropWhile pySpace) with
  | none => none
  | some r1 =>
      match r1.dropWhile pySpace with
      | '=' :: r3 =>
          let g := (r3.dropWhile pySpace).takeWhile isDigitDot
          if g = [] then none else some g
      | _ => none

/-- `re.search` for the pattern `;\s*<key>\s*=\s*([\d.]+)` (IGNORECASE):
leftmost match wins; returns the captured group. -/
def searchProfileKey (key : List Char) : List Char → Option (List Char)
  | [] => none
  | ';' :: t =>
      match profileAfterSemi key t with
      | some g => some g
      | none => searchProfileKey key t
  | _ :: t => searchProfileKey key t

/-- First `E` in the text that is followed by at least one `[\d.]` character,
returning the maximal `[\d.]+` run after it (the lazy `.*?E([\d.]+)` tail of
the extrusion regex). -/
def findEGroup : List Char → Option (List Char)
  | [] => none
  | 'E' :: t =>
      let g := t.takeWhile isDigitDot
      if g = [] then findEGroup t else some g
  | _ :: t => findEGroup t

/-- `re.search` for `G1 .*?E([\d.]+)`: a match starts at an occurrence of the
literal `"G1 "` and its lazy middle selects the first subsequent `E` followed
by `[\d.]+`; returns the captured group of the leftmost match. -/
def g1Search : List Char → Option (List Char)
  | [] => none
  | c :: t =>
      match (if ['G', '1', ' '].isPrefixOf (c :: t) then findEGroup (t.drop 2) else none) with
      | some g => some g
      | none => g1Search t

def nozzleKey : List Char := "nozzle_diameter".toList
def layerKey : List Char := "layer_height".toList
def supportMarker : List Char := ";TYPE:Support material".toList
def typeMarker : List Char := ";TYPE:".toList

/-- One profile-comment regex applied to one (stripped) line: no match keeps
the current value, a match replaces it with `float(group(1))`, which can raise
on a malformed numeral. -/
def profileUpdate (key : List Char) (l : List Char) (cur : Option ℚ) :
    Except PyErr (Option ℚ) :=
  match searchProfileKey key l with
  | none => .ok cur
  | some g =>
      match pyFloat? g with
      | some v => .ok (some v)
      | none => .error .floatParse

/-- The scanning loop of `estimate_nozzle_and_layer_height`: strip the line,
try both regexes, break as soon as both values are known; at end of file raise
if either is still missing. -/
def profileLoop : List (List Char) → Option ℚ → Option ℚ → Except PyErr (ℚ × ℚ)
  | [], nd, lh =>
      match nd, lh with
      | some n, some l => .ok (n, l)
      | _, _ => .error .profileIncomplete
  | line :: rest, nd, lh =>
      match profileUpdate nozzleKey (pyStrip line) nd with
      | .error e => .error e
      | .ok nd2 =>
          match profileUpdate layerKey (pyStrip line) lh with
          | .error e => .error e
          | .ok lh2 =>
              match nd2, lh2 with
              | some n, some l => .ok (n, l)
              | nd3, lh3 => profileLoop rest nd3 lh3

/-- `estimate_nozzle_and_layer_height` from `slice_stl.py`, over the lines of
the gcode file. -/
def estimate_nozzle_and_layer_height (lines : List (List Char)) : Except PyErr (ℚ × ℚ) :=
  profileLoop lines none none

/-- The `is_support` flag update performed at the top of every scan loop:
`";TYPE:Support material" in line` sets it, any other line containing
`";TYPE:"` clears it, anything else keeps it. -/
def updFlag (l : List Char) (is_support : Bool) : Bool :=
  if containsSub l supportMarker then true
  else if containsSub l typeMarker then false
  else is_support

/-- Loop body state of `estimate_support_volume`: for each line, strip, update
the `is_support` flag from the `;TYPE:` markers, then if the extrusion regex
matches and the flag is set, add `3.14159 * radius² * (current − last)` and
remember `current` as the new `last_extrusion`. -/
def supportLoop (nozzle_diameter : ℚ) :
    List (List Char) → Bool → ℚ → ℚ → Except PyErr ℚ
  | [], _, _, support_volume => .ok support_volume
  | line :: rest, is_support, last_extrusion, support_volume =>
      let l := pyStrip line
      let is2 := updFlag l is_support
      match g1Search l with
      | some g =>
          if is2 then
            match pyFloat? g with
            | some current_extrusion =>
                let radius := nozzle_diameter / 2
                supportLoop nozzle_diameter rest is2 current_extrusion
                  (support_volume + 3.14159 * radius ^ 2 * (current_extrusion - last_extrusion))
            | none => .error .floatParse
          else supportLoop nozzle_diameter rest is2 last_extrusion support_volume
      | none => supportLoop nozzle_diameter rest is2 last_extrusion support_volume

/-- `estimate_support_volume` from `slice_stl.py` (the `layer_height` argument
is accepted and ignored, as in the source). -/
def estimate_support_volume (lines : List (List Char))
    (nozzle_diameter layer_height : ℚ) : Except PyErr ℚ :=
  supportLoop nozzle_diameter lines false 0 0

/-- Loop of `estiamte_non_support_volume`: identical to `supportLoop` except
that the accumulation happens when the flag is NOT set (`match and not
is_support`); in particular its `last_extrusion` is updated only on
non-support extrusion lines. -/
def nonSupportLoop (nozzle_diameter : ℚ) :
    List (List Char) → Bool → ℚ → ℚ → Except PyErr ℚ
  | [], _, _, non_support_volume => .ok non_support_volume
  | line :: rest, is_support, last_extrusion, non_support_volume =>
      let l := pyStrip line
      let is2 := updFlag l is_support
      match g1Search l with
      | some g =>
          if is2 then nonSupportLoop nozzle_diameter rest is2 last_extrusion non_support_volume
          else
            match pyFloat? g with
            | some current_extrusion =>
                let radius := nozzle_diameter / 2
                nonSupportLoop nozzle_diameter rest is2 current_extrusion
                  (non_support_volume + 3.14159 * radius ^ 2 * (current_extrusion - last_extrusion))
            | none => .error .floatParse
      | none => nonSupportLoop nozzle_diameter rest is2 last_extrusion non_support_volume

/-- `estiamte_non_support_volume` from `slice_stl.py` (source spelling kept). -/
def estiamte_non_support_volume (lines : List (List Char))
    (nozzle_diameter layer_height : ℚ) : Except PyErr ℚ :=
  nonSupportLoop nozzle_diameter lines false 0 0

/-- `estimate_fraction_of_support_material` from `slice_stl.py`: profile
lookup, both volume passes, explicit zero-total check, then the ratio.  The
`print` diagnostics of the source are pure console output and are not part of
the model. -/
def estimate_fraction_of_support_material (lines : List (List Char)) : Except PyErr ℚ :=
  match estimate_nozzle_and_layer_height lines with
  | .error e => .error e
  | .ok (nozzle_diameter_mm, layer_height_mm) =>
      match estimate_support_volume lines nozzle_diameter_mm layer_height_mm with
      | .error e => .error e
      | .ok support_volume =>
          match estiamte_non_support_volume lines nozzle_diameter_mm layer_height_mm with
          | .error e => .error e
          | .ok non_support_volume =>
              if support_volume + non_support_volume = 0 then .error .zeroVolume
              else .ok (support_volume / (support_volume + non_support_volume))

/-! ## Slice Attempt Executor and Rotation Search Controller

`slice_stl_no_support` invokes the external slicer once.  The external world
is modelled by a `SliceOutcome` oracle value: the process exit status, its
captured stdout, and the gcode lines the process writes to the requested
output path when it exits successfully.  The filesystem is a map from paths to
file contents; `os.path.abspath` is modelled as the identity (path
normalisation is environment state outside the program). -/

/-- Result of one external slicer invocation (`subprocess.run`). -/
structure SliceOutcome where
  exitZero : Bool
  stdout : List Char
  gcodeLines : List (List Char)

/-- Filesystem: maps a path to the lines of the file stored there. -/
abbrev FS := List Char → Option (List (List Char))

def fsWrite (fs : FS) (p : List Char) (content : List (List Char)) : FS :=
  fun q => if q = p then some content else fs q

/-- `os.remove`. -/
def fsRemove (fs : FS) (p : List Char) : FS :=
  fun q => if q = p then none else fs q

/-- `os.path.basename` (with `/` as separator). -/
def basename (p : List Char) : List Char :=
  (p.reverse.takeWhile (fun c => c ≠ '/')).reverse

/-- `os.path.dirname` (with `/` as separator). -/
def dirname (p : List Char) : List Char :=
  if p.contains '/' then ((p.reverse.dropWhile (fun c => c ≠ '/')).reverse).dropLast
  else []

/-- The root part of `os.path.splitext`: strip the extension after the last
dot, unless the dot only leads the name. -/
def splitextRoot (b : List Char) : List Char :=
  if b.contains '.' then
    match b.reverse.dropWhile (fun c => c ≠ '.') with
    | [] => b
    | _ :: rest => if rest.all (fun c => c = '.') then b else rest.reverse
  else b

/-- The deterministic output path of the Executor:
`os.path.join(output_folder, splitext(basename(stl_path))[0] + ".gcode")`.
Note that it depends only on the STL base name, never on the rotation. -/
def outPathOf (output_folder stl_path : List Char) : List Char :=
  output_folder ++ '/' :: (splitextRoot (basename stl_path) ++ ".gcode".toList)

def stabilityMarker : List Char := "Detected print stability issues".toList
def stabilityHeader : List Char := "Detected print stability issues:".toList

/-- Everything observable about one `slice_stl_no_support` call: the Python
return value (or the exception that escaped), the filesystem afterwards,
whether `subprocess.run` was reached, and whether
`estimate_fraction_of_support_material` was called. -/
structure ExecResult where
  ret : Except PyErr (Option (List Char))
  fs : FS
  invoked : Bool
  analyzed : Bool

/-- The `else` branch of the classification in `slice_stl_no_support` (marker
present): locate the warning text with two `str.index` calls — each raising
`ValueError` when the substring is absent — then run
`estimate_fraction_of_support_material` on the just-written gcode purely for
diagnostics, then fall through to `return None`. -/
def warnedBranchRet (run : SliceOutcome) : Except PyErr (Option (List Char)) :=
  match findSub run.stdout stabilityHeader with
  | none => .error .substrNotFound
  | some i =>
      -- warning_start_idx = i + len("Detected print stability issues:") + 1
      match findSub (run.stdout.drop (i + stabilityHeader.length + 1)) ['\n'] with
      | none => .error .substrNotFound
      | some _ =>
          -- the file at the output path was written by this very invocation,
          -- so the read inside the estimator sees `run.gcodeLines`
          match estimate_fraction_of_support_material run.gcodeLines with
          | .error e => .error e
          | .ok _ => .ok none

/-- Whether control in the `else` branch reaches the diagnostic call to
`estimate_fraction_of_support_material` (both `str.index` calls succeed). -/
def warnedBranchAnalyzed (run : SliceOutcome) : Bool :=
  match findSub run.stdout stabilityHeader with
  | none => false
  | some i =>
      match findSub (run.stdout.drop (i + stabilityHeader.length + 1)) ['\n'] with
      | none => false
      | some _ => true

/-- `slice_stl_no_support` from `slice_stl.py`.  The body builds the slicer
command from its arguments unconditionally — there is no validation of
`degrees` or `axis` — and runs it (`invoked` is true on every path).  With
`check=True`, a non-zero exit raises `CalledProcessError`, which the
`except` clause absorbs before the final `return None`.  On a zero exit the
process has written `run.gcodeLines` to the deterministic output path; if the
stability marker is absent the path is returned, otherwise the warned branch
(`warnedBranchRet`) runs. -/
def slice_stl_no_support (run : SliceOutcome)
    (stl_path config_path output_folder : List Char)
    (degrees : Int) (axis : List Char) (fs : FS) : ExecResult :=
  let output_path := outPathOf output_folder stl_path
  if run.exitZero then
    let fs2 := fsWrite fs output_path run.gcodeLines
    if containsSub run.stdout stabilityMarker = false then
      { ret := .ok (some output_path), fs := fs2, invoked := true, analyzed := false }
    else
      { ret := warnedBranchRet run, fs := fs2, invoked := true,
        analyzed := warnedBranchAnalyzed run }
  else
    -- CalledProcessError: logged and absorbed; falls through to `return None`
    { ret := .ok none, fs := fs, invoked := true, analyzed := false }

/-- The Python return value of `slice_stl_no_support` as a function of the
process outcome alone (it does not depend on the pre-existing filesystem). -/
def attemptRet (run : SliceOutcome) (output_path : List Char) :
    Except PyErr (Option (List Char)) :=
  if run.exitZero then
    if containsSub run.stdout stabilityMarker = false then .ok (some output_path)
    else warnedBranchRet run
  else .ok none

/-- The six candidate orientations tried by the Controller, in order:
`for rotation in range(0, 360, 90)` on axis `y`, then `(90, 270)` on `x`. -/
def candidateOrder : List (List Char × Int) :=
  [("y".toList, 0), ("y".toList, 90), ("y".toList, 180), ("y".toList, 270),
   ("x".toList, 90), ("x".toList, 270)]

/-- Everything observable about one rotation search: the returned winning path
(or the exception that escaped), the filesystem afterwards, the sequence of
Executor invocations, and the paths passed to `os.remove`, in order. -/
structure SearchResult where
  ret : Except PyErr (List Char)
  fs : FS
  trace : List (List Char × Int)
  removed : List (List Char)

/-- The loop of `slice_stl_brute_force_rotation_no_support`, over the combined
candidate list (the source's two `for` loops have identical bodies).  On a
returned path the `generated_files` collected so far are removed and the path
is returned; on `None` the loop continues — the source's second
`if sliced_path is not None: generated_files.append(sliced_path)` sits after
a `return` under the identical condition, so in the `None` branch its test is
false and nothing is ever appended; an uncaught exception from the Executor
aborts the whole search. -/
def searchLoop (oracle : List Char → Int → SliceOutcome)
    (stl_path config_path output_folder : List Char) :
    List (List Char × Int) → FS → List (List Char) → List (List Char × Int) →
    List (List Char) → SearchResult
  | [], fs, _, trace, removed =>
      { ret := .error .exhaustedSearch, fs := fs, trace := trace, removed := removed }
  | (axis, rotation) :: rest, fs, generated_files, trace, removed =>
      let r := slice_stl_no_support (oracle axis rotation)
        stl_path config_path output_folder rotation axis fs
      let trace2 := trace ++ [(axis, rotation)]
      match r.ret with
      | .error e =>
          { ret := .error e, fs := r.fs, trace := trace2, removed := removed }
      | .ok (some sliced_path) =>
          -- delete previously generated files and return the current one
          { ret := .ok sliced_path,
            fs := generated_files.foldl fsRemove r.fs,
            trace := trace2,
            removed := removed ++ generated_files }
      | .ok none =>
          -- `if sliced_path is not None:` is false here: no append
          searchLoop oracle stl_path config_path output_folder rest r.fs
            generated_files trace2 removed

/-- `slice_stl_brute_force_rotation_no_support` from `slice_stl.py`.  When no
output folder is supplied it defaults to the STL's directory;
`os.path.abspath` is modelled as the identity.  `generated_files` starts
empty and, as shown above, stays empty; the `RuntimeError` after the loops is
`PyErr.exhaustedSearch`. -/
def slice_stl_brute_force_rotation_no_support (oracle : List Char → Int → SliceOutcome)
    (stl_path slicer_config_path : List Char)
    (output_folder_path : Option (List Char)) (fs : FS) : SearchResult :=
  let folder :=
    match output_folder_path with
    | none => dirname stl_path
    | some f => f
  searchLoop oracle stl_path slicer_config_path folder candidateOrder fs [] [] []

/-! ## Spec-side models and concrete oracles -/

/-- Follows the spec's words (§4.3 `estimate_region_volume`), for comparison
with the source functions: a single pass over the lines with two accumulators
and ONE shared previous cumulative extrusion value — "compute the incremental
extruded length as (current cumulative extrusion value − previous cumulative
value) ... and accumulate into whichever region's running total is currently
active".  Region markers and the volume formula are as in the source. -/
def specSinglePassLoop (nozzle_diameter : ℚ) :
    List (List Char) → Bool → ℚ → ℚ → ℚ → Except PyErr (ℚ × ℚ)
  | [], _, _, s, n => .ok (s, n)
  | line :: rest, is_support, last, s, n =>
      let l := pyStrip line
      let is2 := updFlag l is_support
      match g1Search l with
      | some g =>
          match pyFloat? g with
          | some current =>
              let radius := nozzle_diameter / 2
              let inc := 3.14159 * radius ^ 2 * (current - last)
              if is2 then specSinglePassLoop nozzle_diameter rest is2 current (s + inc) n
              else specSinglePassLoop nozzle_diameter rest is2 current s (n + inc)
          | none => .error .floatParse
      | none => specSinglePassLoop nozzle_diameter rest is2 last s n

/-- The spec's single-pass two-accumulator volume computation, started like the
source loops (flag false, previous value 0): returns
(support total, non-support total). -/
def specSinglePassVolumes (lines : List (List Char)) (nozzle_diameter : ℚ) :
    Except PyErr (ℚ × ℚ) :=
  specSinglePassLoop nozzle_diameter lines false 0 0 0

/-- Single pass with two accumulators AND a separate previous cumulative value
per region — the computation the source functions actually perform, used for
the amended form of the refinement claim. -/
def pairedRegionLoop (nozzle_diameter : ℚ) :
    List (List Char) → Bool → ℚ → ℚ → ℚ → ℚ → Except PyErr (ℚ × ℚ)
  | [], _, _, _, s, n => .ok (s, n)
  | line :: rest, is_support, lastS, lastN, s, n =>
      let l := pyStrip line
      let is2 := updFlag l is_support
      match g1Search l with
      | some g =>
          match pyFloat? g with
          | some current =>
              let radius := nozzle_diameter / 2
              if is2 then
                pairedRegionLoop nozzle_diameter rest is2 current lastN
                  (s + 3.14159 * radius ^ 2 * (current - lastS)) n
              else
                pairedRegionLoop nozzle_diameter rest is2 lastS current s
                  (n + 3.14159 * radius ^ 2 * (current - lastN))
          | none => .error .floatParse
      | none => pairedRegionLoop nozzle_diameter rest is2 lastS lastN s n

/-- Both totals of the per-region single pass. -/
def pairedRegionVolumes (lines : List (List Char)) (nozzle_diameter : ℚ) :
    Except PyErr (ℚ × ℚ) :=
  pairedRegionLoop nozzle_diameter lines false 0 0 0 0

/-- The cumulative extrusion values of a gcode, in line order: the parsed
capture group of every line matched by the extrusion regex.  (Lines whose
captured group `float()` would reject contribute no value.) -/
def extrusionValues (lines : List (List Char)) : List ℚ :=
  lines.filterMap (fun l => (g1Search (pyStrip l)).bind pyFloat?)

/-- A gcode whose extrusion-group text parses on every matched line (Python
`float()` accepts the captured group wherever the extrusion regex matches). -/
abbrev WellFormedGcode (lines : List (List Char)) : Prop :=
  ∀ l ∈ lines, Option.all (fun g => (pyFloat? g).isSome) (g1Search (pyStrip l)) = true

/-! Concrete process outcomes, gcode files and oracles used to evaluate the
model at specific inputs. -/

/-- A failed invocation: non-zero exit status. -/
def failedRun : SliceOutcome := ⟨false, [], []⟩

/-- A clean invocation: zero exit, no stability marker in the output. -/
def cleanRun : SliceOutcome := ⟨true, "Slicing done\n".toList, []⟩

/-- Stdout of a warned invocation, with the full header and a newline after
the warning detail. -/
def warnedStdout : List Char :=
  "Detected print stability issues: tall object\nDone".toList

/-- A gcode with a complete profile and one non-support extrusion move. -/
def okGcode : List (List Char) :=
  ["; nozzle_diameter = 0.4".toList, "; layer_height = 0.2".toList, "G1 E10".toList]

/-- A warned invocation whose output gcode analyses cleanly. -/
def warnedRunOkGcode : SliceOutcome := ⟨true, warnedStdout, okGcode⟩

/-- A warned invocation whose output gcode has no profile comments, so the
diagnostic analysis raises. -/
def warnedRunEmptyGcode : SliceOutcome := ⟨true, warnedStdout, []⟩

/-- Zero exit with the stability marker present but without the colon-bearing
header `"Detected print stability issues:"` that the warned branch looks up
with `str.index`. -/
def warnedRunNoColon : SliceOutcome :=
  ⟨true, "Detected print stability issues".toList, []⟩

/-- Executor stub that is Clean only at Y-180° and Failed elsewhere. -/
def cleanAtY180Oracle : List Char → Int → SliceOutcome := fun axis deg =>
  if axis = "y".toList ∧ deg = 180 then cleanRun else failedRun

/-- Executor stub whose every invocation fails (non-zero exit). -/
def failedOracle : List Char → Int → SliceOutcome := fun _ _ => failedRun

/-- Executor stub whose every invocation is warned and writes a gcode that
analyses cleanly. -/
def warnedOracle : List Char → Int → SliceOutcome := fun _ _ => warnedRunOkGcode

/-- Executor stub whose every invocation is warned and writes a gcode on which
the diagnostic analysis raises `profileIncomplete`. -/
def warnedEmptyOracle : List Char → Int → SliceOutcome := fun _ _ => warnedRunEmptyGcode

/-- The gcode of the refinement counterexample: one non-support extrusion move,
then a support region with one move. -/
def c7Gcode : List (List Char) :=
  ["G1 E10".toList, ";TYPE:Support material".toList, "G1 E15".toList]

/-- The profile example from the spec, verbatim. -/
def profileExample : List (List Char) :=
  ["; nozzle_diameter = 0.4".toList, "; layer_height = 0.2".toList]

/-- The same profile with different letter case and whitespace. -/
def profileExampleVariant : List (List Char) :=
  ["  ; NOZZLE_diameter  =  0.4  ".toList, ";LAYER_HEIGHT=0.2".toList]

/-- A gcode with a full profile, a non-support move and a support move. -/
def fractionGcode : List (List Char) :=
  ["; nozzle_diameter = 2".toList, "; layer_height = 0.2".toList,
   "G1 E10".toList, ";TYPE:Support material".toList, "G1 E15".toList]

/-- Degenerate gcode: a full profile but no extrusion at all. -/
def degenerateGcode : List (List Char) :=
  ["; nozzle_diameter = 0.4".toList, "; layer_height = 0.2".toList]

/-! ### Behaviour of the search loop -/

theorem slice_ret_eq (run : SliceOutcome)
    (stl_path config_path output_folder : List Char)
    (degrees : Int) (axis : List Char) (fs : FS) :
    (slice_stl_no_support run stl_path config_path output_folder degrees axis fs).ret
      = attemptRet run (outPathOf output_folder stl_path) := by
  unfold slice_stl_no_support attemptRet
  by_cases h : run.exitZero
  · by_cases h2 : containsSub run.stdout stabilityMarker = false <;> simp [h, h2]
  · simp [h]

theorem searchLoop_all_rejected (oracle : List Char → Int → SliceOutcome)
    (s c f : List Char) :
    ∀ (cands : List (List Char × Int)) (fs : FS) (trace : List (List Char × Int))
      (removed : List (List Char)),
    (∀ p ∈ cands, attemptRet (oracle p.1 p.2) (outPathOf f s) = .ok none) →
    (searchLoop oracle s c f cands fs [] trace removed).ret = .error .exhaustedSearch ∧
    (searchLoop oracle s c f cands fs [] trace removed).trace = trace ++ cands ∧
    (searchLoop oracle s c f cands fs [] trace removed).removed = removed := by
  intro cands
  induction cands with
  | nil => intro fs trace removed _; simp [searchLoop]
  | cons cand rest ih =>
      intro fs trace removed h
      obtain ⟨axis, rotation⟩ := cand
      have hr := slice_ret_eq (oracle axis rotation) s c f rotation axis fs
      have hhead := h (axis, rotation) (by simp)
      rw [hhead] at hr
      simp only [searchLoop, hr]
      have := ih (slice_stl_no_support (oracle axis rotation) s c f rotation axis fs).fs
        (trace ++ [(axis, rotation)]) removed
        (fun p hp => h p (List.mem_cons_of_mem _ hp))
      simpa [List.append_assoc] using this

theorem searchLoop_first_clean (oracle : List Char → Int → SliceOutcome)
    (s c f : List Char) :
    ∀ (pre : List (List Char × Int)) (cand : List Char × Int)
      (post : List (List Char × Int)) (fs : FS) (trace : List (List Char × Int))
      (removed : List (List Char)) (q : List Char),
    (∀ p ∈ pre, attemptRet (oracle p.1 p.2) (outPathOf f s) = .ok none) →
    attemptRet (oracle cand.1 cand.2) (outPathOf f s) = .ok (some q) →
    (searchLoop oracle s c f (pre ++ cand :: post) fs [] trace removed).ret = .ok q ∧
    (searchLoop oracle s c f (pre ++ cand :: post) fs [] trace removed).trace
      = trace ++ pre ++ [cand] ∧
    (searchLoop oracle s c f (pre ++ cand :: post) fs [] trace removed).removed = removed := by
  intro pre
  induction pre with
  | nil =>
      intro cand post fs trace removed q _ hc
      obtain ⟨axis, rotation⟩ := cand
      have hr := slice_ret_eq (oracle axis rotation) s c f rotation axis fs
      rw [hc] at hr
      simp [searchLoop, hr]
  | cons hd tl ih =>
      intro cand post fs trace removed q h hc
      obtain ⟨axis, rotation⟩ := hd
      have hr := slice_ret_eq (oracle axis rotation) s c f rotation axis fs
      have hhead := h (axis, rotation) (by simp)
      rw [hhead] at hr
      simp only [List.cons_append, searchLoop, hr]
      have := ih cand post
        (slice_stl_no_support (oracle axis rotation) s c f rotation axis fs).fs
        (trace ++ [(axis, rotation)]) removed q
        (fun p hp => h p (List.mem_cons_of_mem _ hp)) hc
      simpa [List.append_assoc] using this

theorem searchLoop_error_propagates (oracle : List Char → Int → SliceOutcome)
    (s c f : List Char) :
    ∀ (pre : List (List Char × Int)) (cand : List Char × Int)
      (post : List (List Char × Int)) (fs : FS) (trace : List (List Char × Int))
      (removed : List (List Char)) (e : PyErr),
    (∀ p ∈ pre, attemptRet (oracle p.1 p.2) (outPathOf f s) = .ok none) →
    attemptRet (oracle cand.1 cand.2) (outPathOf f s) = .error e →
    (searchLoop oracle s c f (pre ++ cand :: post) fs [] trace removed).ret = .error e ∧
    (searchLoop oracle s c f (pre ++ cand :: post) fs [] trace removed).trace
      = trace ++ pre ++ [cand] := by
  intro pre
  induction pre with
  | nil =>
      intro cand post fs trace removed e _ hc
      obtain ⟨axis, rotation⟩ := cand
      have hr := slice_ret_eq (oracle axis rotation) s c f rotation axis fs
      rw [hc] at hr
      simp [searchLoop, hr]
  | cons hd tl ih =>
      intro cand post fs trace removed e h hc
      obtain ⟨axis, rotation⟩ := hd
      have hr := slice_ret_eq (oracle axis rotation) s c f rotation axis fs
      have hhead := h (axis, rotation) (by simp)
      rw [hhead] at hr
      simp only [List.cons_append, searchLoop, hr]
      have := ih cand post
        (slice_stl_no_support (oracle axis rotation) s c f rotation axis fs).fs
        (trace ++ [(axis, rotation)]) removed e
        (fun p hp => h p (List.mem_cons_of_mem _ hp)) hc
      simpa [List.append_assoc] using this

theorem searchLoop_no_local_error (oracle : List Char → Int → SliceOutcome)
    (s c f : List Char) :
    ∀ (cands : List (List Char × Int)) (fs : FS) (trace : List (List Char × Int))
      (removed : List (List Char)),
    (∀ p ∈ cands, ∃ v, attemptRet (oracle p.1 p.2) (outPathOf f s) = .ok v) →
    (∃ q, (searchLoop oracle s c f cands fs [] trace removed).ret = .ok q) ∨
    (searchLoop oracle s c f cands fs [] trace removed).ret = .error .exhaustedSearch := by
  intro cands
  induction cands with
  | nil => intro fs trace removed _; right; simp [searchLoop]
  | cons cand rest ih =>
      intro fs trace removed h
      obtain ⟨axis, rotation⟩ := cand
      have hr := slice_ret_eq (oracle axis rotation) s c f rotation axis fs
      obtain ⟨v, hv⟩ := h (axis, rotation) (by simp)
      rw [hv] at hr
      cases v with
      | some q => left; exact ⟨q, by simp [searchLoop, hr]⟩
      | none =>
          simp only [searchLoop, hr]
          exact ih _ _ _ (fun p hp => h p (List.mem_cons_of_mem _ hp))

theorem brute_force_some_folder (oracle : List Char → Int → SliceOutcome)
    (stl cfg folder : List Char) (fs : FS) :
    slice_stl_brute_force_rotation_no_support oracle stl cfg (some folder) fs
      = searchLoop oracle stl cfg folder candidateOrder fs [] [] [] := rfl

theorem warnedBranchRet_ne_some (run : SliceOutcome) (p : List Char) :
    warnedBranchRet run ≠ .ok (some p) := by
  unfold warnedBranchRet
  split
  · simp
  · split
    · simp
    · split <;> simp

/-! ## Claim theorems -/

/-- C3: the Rotation Search Controller attempts orientations in exactly the
fixed order Y-0°, Y-90°, Y-180°, Y-270°, X-90°, X-270° (`candidateOrder`) and
returns the deterministic output path at the first attempt classified Clean,
without invoking the Executor on any later orientation: whenever the
candidates split as `pre ++ cand :: post` with every attempt in `pre`
classified locally as rejected (returning `None`) and `cand` classified Clean
(returning the output path), the search returns that path and the Executor
trace is exactly `pre ++ [cand]`. -/
theorem c3_fixed_order_first_clean_wins
    (oracle : List Char → Int → SliceOutcome) (stl cfg folder : List Char) (fs : FS)
    (pre : List (List Char × Int)) (cand : List Char × Int)
    (post : List (List Char × Int))
    (horder : candidateOrder = pre ++ cand :: post)
    (hpre : ∀ p ∈ pre, attemptRet (oracle p.1 p.2) (outPathOf folder stl) = .ok none)
    (hclean : attemptRet (oracle cand.1 cand.2) (outPathOf folder stl)
      = .ok (some (outPathOf folder stl))) :
    (slice_stl_brute_force_rotation_no_support oracle stl cfg (some folder) fs).ret
      = .ok (outPathOf folder stl) ∧
    (slice_stl_brute_force_rotation_no_support oracle stl cfg (some folder) fs).trace
      = pre ++ [cand] := by
  have h := searchLoop_first_clean oracle stl cfg folder pre cand post fs [] []
    (outPathOf folder stl) hpre hclean
  rw [brute_force_some_folder, horder]
  exact ⟨h.1, by simpa using h.2.1⟩

/-- C3 witness: with the stub Executor that is Clean only at Y-180° (Failed
elsewhere), the Controller returns `out/part.gcode` after exactly the three
invocations Y-0°, Y-90°, Y-180°. -/
theorem c3_witness :
    (slice_stl_brute_force_rotation_no_support cleanAtY180Oracle "part.stl".toList
        "cfg.ini".toList (some "out".toList) (fun _ => none)).ret
      = .ok "out/part.gcode".toList ∧
    (slice_stl_brute_force_rotation_no_support cleanAtY180Oracle "part.stl".toList
        "cfg.ini".toList (some "out".toList) (fun _ => none)).trace
      = [("y".toList, 0), ("y".toList, 90), ("y".toList, 180)] := by
  have h := c3_fixed_order_first_clean_wins cleanAtY180Oracle "part.stl".toList
    "cfg.ini".toList "out".toList (fun _ => none)
    [("y".toList, 0), ("y".toList, 90)] ("y".toList, 180)
    [("y".toList, 270), ("x".toList, 90), ("x".toList, 270)]
    rfl (by intro p hp; fin_cases hp <;> rfl) rfl
  exact ⟨h.1, h.2⟩

/-- C4: if every orientation in the six-candidate sequence is classified
Warned or Failed (each Executor call returns `None`), the Controller raises
`ExhaustedSearchError` (the `RuntimeError` after the loops) after invoking the
Executor on exactly all six candidates — there is no fallback to a
least-support orientation, the search simply raises. -/
theorem c4_exhausted_after_six_invocations
    (oracle : List Char → Int → SliceOutcome) (stl cfg folder : List Char) (fs : FS)
    (h : ∀ p ∈ candidateOrder, attemptRet (oracle p.1 p.2) (outPathOf folder stl) = .ok none) :
    (slice_stl_brute_force_rotation_no_support oracle stl cfg (some folder) fs).ret
      = .error .exhaustedSearch ∧
    (slice_stl_brute_force_rotation_no_support oracle stl cfg (some folder) fs).trace
      = candidateOrder := by
  have hh := searchLoop_all_rejected oracle stl cfg folder candidateOrder fs [] [] h
  rw [brute_force_some_folder]
  exact ⟨hh.1, by simpa using hh.2.1⟩

/-- C4 witness: with the always-Failed stub Executor the Controller raises
`ExhaustedSearchError` after exactly the six invocations Y-0/90/180/270,
X-90/270. -/
theorem c4_witness :
    (slice_stl_brute_force_rotation_no_support failedOracle "part.stl".toList
        "cfg.ini".toList (some "out".toList) (fun _ => none)).ret
      = .error .exhaustedSearch ∧
    (slice_stl_brute_force_rotation_no_support failedOracle "part.stl".toList
        "cfg.ini".toList (some "out".toList) (fun _ => none)).trace
      = candidateOrder :=
  c4_exhausted_after_six_invocations failedOracle "part.stl".toList "cfg.ini".toList
    "out".toList (fun _ => none) (fun _ _ => rfl)

/-- C2 counterexample: a single-attempt, estimation-only failure DOES escape
the Controller.  With an Executor whose first (Y-0°) attempt is Warned and
writes a gcode without profile comments, the Warned-branch diagnostic analysis
raises `ProfileIncompleteError`, and the Controller's caller sees exactly that
error — not a local classification, not `ExhaustedSearchError`. -/
theorem c2_counterexample_profile_error_escapes :
    (slice_stl_brute_force_rotation_no_support warnedEmptyOracle "part.stl".toList
        "cfg.ini".toList (some "out".toList) (fun _ => none)).ret
      = .error .profileIncomplete ∧
    PyErr.profileIncomplete ≠ PyErr.exhaustedSearch := by
  exact ⟨rfl, by decide⟩

/-- C2 amended: slicer-process failures and warned classifications are
absorbed locally — if every Executor attempt returns a value (is classified
locally), the Controller's caller sees only a winning path or
`ExhaustedSearchError`; but an exception raised inside an attempt (such as
`ProfileIncompleteError` from the Warned-branch diagnostic analysis) is NOT
caught: if the attempts before some candidate are classified as rejected and
that candidate's attempt raises `e`, the Controller propagates `e` to its
caller. -/
theorem c2_amended_local_failures
    (oracle : List Char → Int → SliceOutcome) (stl cfg folder : List Char) (fs : FS) :
    ((∀ p ∈ candidateOrder, ∃ v, attemptRet (oracle p.1 p.2) (outPathOf folder stl) = .ok v) →
      (∃ q, (slice_stl_brute_force_rotation_no_support oracle stl cfg (some folder) fs).ret
          = .ok q) ∨
      (slice_stl_brute_force_rotation_no_support oracle stl cfg (some folder) fs).ret
        = .error .exhaustedSearch) ∧
    (∀ (pre : List (List Char × Int)) (cand : List Char × Int)
      (post : List (List Char × Int)) (e : PyErr),
      candidateOrder = pre ++ cand :: post →
      (∀ p ∈ pre, attemptRet (oracle p.1 p.2) (outPathOf folder stl) = .ok none) →
      attemptRet (oracle cand.1 cand.2) (outPathOf folder stl) = .error e →
      (slice_stl_brute_force_rotation_no_support oracle stl cfg (some folder) fs).ret
        = .error e) := by
  constructor
  · intro h
    rw [brute_force_some_folder]
    exact searchLoop_no_local_error oracle stl cfg folder candidateOrder fs [] [] h
  · intro pre cand post e horder hpre he
    rw [brute_force_some_folder, horder]
    exact (searchLoop_error_propagates oracle stl cfg folder pre cand post
      fs [] [] e hpre he).1

/-- C2 amended witness: the always-Failed Executor yields the binary outcome
(here exhaustion), and the Executor whose Warned first attempt analyses an
empty gcode propagates `ProfileIncompleteError` out of the Controller. -/
theorem c2_amended_witness :
    ((∃ q, (slice_stl_brute_force_rotation_no_support failedOracle "part.stl".toList
        "cfg.ini".toList (some "out".toList) (fun _ => none)).ret = .ok q) ∨
      (slice_stl_brute_force_rotation_no_support failedOracle "part.stl".toList
        "cfg.ini".toList (some "out".toList) (fun _ => none)).ret
        = .error .exhaustedSearch) ∧
    (slice_stl_brute_force_rotation_no_support warnedEmptyOracle "part.stl".toList
        "cfg.ini".toList (some "out".toList) (fun _ => none)).ret
      = .error .profileIncomplete := by
  constructor
  · exact (c2_amended_local_failures failedOracle "part.stl".toList "cfg.ini".toList
      "out".toList (fun _ => none)).1 (fun p _ => ⟨none, rfl⟩)
  · exact (c2_amended_local_failures warnedEmptyOracle "part.stl".toList "cfg.ini".toList
      "out".toList (fun _ => none)).2 [] ("y".toList, 0)
      [("y".toList, 90), ("y".toList, 180), ("y".toList, 270),
       ("x".toList, 90), ("x".toList, 270)] .profileIncomplete rfl
      (by intro p hp; simp at hp) rfl

/-- C6 counterexample: an (axis, degrees) pair violating every stated
constraint — axis `z`, 45° — is passed straight to the external process: the
Executor invokes the slicer (`invoked = true`) and even returns the output
path, with no validation failure of any kind. -/
theorem c6_counterexample_invalid_pair_launches :
    (slice_stl_no_support cleanRun "part.stl".toList "cfg.ini".toList "out".toList 45
        "z".toList (fun _ => none)).invoked = true ∧
    (slice_stl_no_support cleanRun "part.stl".toList "cfg.ini".toList "out".toList 45
        "z".toList (fun _ => none)).ret = .ok (some "out/part.gcode".toList) ∧
    ¬ ((45 : Int) % 90 = 0) ∧ "z".toList ≠ "x".toList ∧ "z".toList ≠ "y".toList := by
  exact ⟨rfl, rfl, by decide, by decide, by decide⟩

/-- C6 amended: the Executor performs no validation of the (axis, degrees)
pair at all — for every pair, including degrees not a multiple of 90, degrees
outside [0, 360), or an axis other than x/y, the external slicer process is
invoked. -/
theorem c6_amended_no_validation (run : SliceOutcome)
    (stl cfg folder : List Char) (deg : Int) (axis : List Char) (fs : FS) :
    (slice_stl_no_support run stl cfg folder deg axis fs).invoked = true := by
  unfold slice_stl_no_support
  by_cases h : run.exitZero
  · by_cases h2 : containsSub run.stdout stabilityMarker = false <;> simp [h, h2]
  · simp [h]

/-- C5 counterexample: zero exit with the stability marker present, but
without the colon-bearing header `"Detected print stability issues:"`: the
warned branch's `str.index` lookup raises `ValueError` BEFORE the GCode
Heuristic Analyzer runs — contradicting the claim that on every Warned
attempt the Analyzer is run on the output. -/
theorem c5_counterexample_marker_without_colon :
    warnedRunNoColon.exitZero = true ∧
    containsSub warnedRunNoColon.stdout stabilityMarker = true ∧
    (slice_stl_no_support warnedRunNoColon "part.stl".toList "cfg.ini".toList
        "out".toList 0 "y".toList (fun _ => none)).analyzed = false ∧
    (slice_stl_no_support warnedRunNoColon "part.stl".toList "cfg.ini".toList
        "out".toList 0 "y".toList (fun _ => none)).ret = .error .substrNotFound := by
  exact ⟨rfl, rfl, rfl, rfl⟩

/-- C5 amended: the Executor classifies each attempt from exit status and
output text: non-zero exit returns `None` without analysis (Failed); zero exit
without the literal stability marker returns the deterministic output path
(Clean); zero exit with the marker present is never accepted (no path is ever
returned), and the GCode Heuristic Analyzer runs for diagnostics provided the
full header `"Detected print stability issues:"` and a newline after the
warning text are found — otherwise a `str.index` `ValueError` escapes before
the analysis. -/
theorem c5_amended_classification (run : SliceOutcome) (stl cfg folder : List Char)
    (deg : Int) (axis : List Char) (fs : FS) :
    (run.exitZero = false →
      (slice_stl_no_support run stl cfg folder deg axis fs).ret = .ok none ∧
      (slice_stl_no_support run stl cfg folder deg axis fs).analyzed = false) ∧
    (run.exitZero = true → containsSub run.stdout stabilityMarker = false →
      (slice_stl_no_support run stl cfg folder deg axis fs).ret
        = .ok (some (outPathOf folder stl))) ∧
    (run.exitZero = true → containsSub run.stdout stabilityMarker = true →
      (∀ p, (slice_stl_no_support run stl cfg folder deg axis fs).ret ≠ .ok (some p)) ∧
      (∀ i j, findSub run.stdout stabilityHeader = some i →
        findSub (run.stdout.drop (i + stabilityHeader.length + 1)) ['\n'] = some j →
        (slice_stl_no_support run stl cfg folder deg axis fs).analyzed = true)) := by
  refine ⟨?_, ?_, ?_⟩
  · intro h; simp [slice_stl_no_support, h]
  · intro h h2; simp [slice_stl_no_support, h, h2]
  · intro h h2
    constructor
    · intro p
      have hne := warnedBranchRet_ne_some run p
      simpa [slice_stl_no_support, h, h2] using hne
    · intro i j hi hj
      simp [slice_stl_no_support, h, h2, warnedBranchAnalyzed, hi, hj]

/-- C5 amended witness: a Failed run returns `None`; the well-formed Warned
run (`warnedRunOkGcode`) is never accepted and its analysis does run. -/
theorem c5_amended_witness :
    (slice_stl_no_support failedRun "part.stl".toList "cfg.ini".toList "out".toList 0
        "y".toList (fun _ => none)).ret = .ok none ∧
    (slice_stl_no_support cleanRun "part.stl".toList "cfg.ini".toList "out".toList 0
        "y".toList (fun _ => none)).ret = .ok (some "out/part.gcode".toList) ∧
    (slice_stl_no_support warnedRunOkGcode "part.stl".toList "cfg.ini".toList
        "out".toList 0 "y".toList (fun _ => none)).ret
      ≠ .ok (some "out/part.gcode".toList) ∧
    (slice_stl_no_support warnedRunOkGcode "part.stl".toList "cfg.ini".toList
        "out".toList 0 "y".toList (fun _ => none)).analyzed = true := by
  refine ⟨?_, ?_, ?_, ?_⟩
  · exact ((c5_amended_classification failedRun "part.stl".toList "cfg.ini".toList
      "out".toList 0 "y".toList (fun _ => none)).1 rfl).1
  · exact (c5_amended_classification cleanRun "part.stl".toList "cfg.ini".toList
      "out".toList 0 "y".toList (fun _ => none)).2.1 rfl rfl
  · exact ((c5_amended_classification warnedRunOkGcode "part.stl".toList "cfg.ini".toList
      "out".toList 0 "y".toList (fun _ => none)).2.2 rfl rfl).1 "out/part.gcode".toList
  · exact ((c5_amended_classification warnedRunOkGcode "part.stl".toList "cfg.ini".toList
      "out".toList 0 "y".toList (fun _ => none)).2.2 rfl rfl).2 0 11 rfl rfl

/-- C1 (code bug): the cleanup the claim describes never happens.  With an
Executor whose every attempt is Warned (zero exit, marker present) and writes
a well-formed gcode, the completed (exhausted) search has performed NO
`os.remove` call — the source appends to `generated_files` only under a
condition that just caused a `return`, so the list provably stays empty — and
the artifact written by the last non-winning attempt is still on disk at the
shared output path afterwards. -/
theorem c1_exhausted_search_keeps_last_warned_artifact :
    (slice_stl_brute_force_rotation_no_support warnedOracle "part.stl".toList
        "cfg.ini".toList (some "out".toList) (fun _ => none)).ret
      = .error .exhaustedSearch ∧
    (slice_stl_brute_force_rotation_no_support warnedOracle "part.stl".toList
        "cfg.ini".toList (some "out".toList) (fun _ => none)).removed = [] ∧
    (slice_stl_brute_force_rotation_no_support warnedOracle "part.stl".toList
        "cfg.ini".toList (some "out".toList) (fun _ => none)).fs
        "out/part.gcode".toList = some okGcode := by
  refine ⟨?_, ?_, ?_⟩ <;> with_unfolding_all rfl

/-! ### Analyzer lemmas -/

theorem pairedRegionLoop_eq (d : ℚ) :
    ∀ (lines : List (List Char)) (flag : Bool) (lastS lastN s n : ℚ),
    WellFormedGcode lines →
    ∃ a b, supportLoop d lines flag lastS s = .ok a ∧
      nonSupportLoop d lines flag lastN n = .ok b ∧
      pairedRegionLoop d lines flag lastS lastN s n = .ok (a, b) := by
  intro lines
  induction lines with
  | nil => intro flag lastS lastN s n _; exact ⟨s, n, rfl, rfl, rfl⟩
  | cons line rest ih =>
      intro flag lastS lastN s n hwf
      have hwfr : WellFormedGcode rest := fun l hl => hwf l (List.mem_cons_of_mem _ hl)
      cases hg : g1Search (pyStrip line) with
      | none =>
          simp only [supportLoop, nonSupportLoop, pairedRegionLoop, hg]
          exact ih (updFlag (pyStrip line) flag) lastS lastN s n hwfr
      | some g =>
          have hwfl := hwf line (by simp)
          rw [hg] at hwfl
          cases hv : pyFloat? g with
          | none => simp [Option.all, hv] at hwfl
          | some v =>
              simp only [supportLoop, nonSupportLoop, pairedRegionLoop, hg, hv]
              cases hflag : updFlag (pyStrip line) flag <;> simp only [if_true, if_false,
                Bool.false_eq_true, ite_true, ite_false]
              · exact ih false lastS v s
                  (n + 3.14159 * (d / 2) ^ 2 * (v - lastN)) hwfr
              · exact ih true v lastN
                  (s + 3.14159 * (d / 2) ^ 2 * (v - lastS)) n hwfr

theorem supportLoop_nonneg (d : ℚ) :
    ∀ (lines : List (List Char)) (flag : Bool) (last vol : ℚ),
    0 ≤ vol →
    (∀ v ∈ extrusionValues lines, last ≤ v) →
    (extrusionValues lines).Pairwise (· ≤ ·) →
    (∀ v ∈ extrusionValues lines, 0 ≤ v) →
    ∀ s, supportLoop d lines flag last vol = .ok s → 0 ≤ s := by
  intro lines
  induction lines with
  | nil =>
      intro flag last vol hvol _ _ _ s hs
      simp only [supportLoop, Except.ok.injEq] at hs
      exact hs ▸ hvol
  | cons line rest ih =>
      intro flag last vol hvol hlast hpw h0 s hs
      cases hg : g1Search (pyStrip line) with
      | none =>
          have hval : extrusionValues (line :: rest) = extrusionValues rest := by
            simp [extrusionValues, List.filterMap_cons, hg]
          rw [hval] at hlast hpw h0
          simp only [supportLoop, hg] at hs
          exact ih (updFlag (pyStrip line) flag) last vol hvol hlast hpw h0 s hs
      | some g =>
          cases hv : pyFloat? g with
          | none =>
              have hval : extrusionValues (line :: rest) = extrusionValues rest := by
                simp [extrusionValues, List.filterMap_cons, hg, hv]
              rw [hval] at hlast hpw h0
              simp only [supportLoop, hg, hv] at hs
              cases hflag : updFlag (pyStrip line) flag
              · rw [hflag] at hs
                simp only [Bool.false_eq_true, ite_false] at hs
                exact ih false last vol hvol hlast hpw h0 s hs
              · rw [hflag] at hs
                simp at hs
          | some v =>
              have hval : extrusionValues (line :: rest) = v :: extrusionValues rest := by
                simp [extrusionValues, List.filterMap_cons, hg, hv]
              rw [hval] at hlast hpw h0
              simp only [supportLoop, hg, hv] at hs
              cases hflag : updFlag (pyStrip line) flag
              · rw [hflag] at hs
                simp only [Bool.false_eq_true, ite_false] at hs
                exact ih false last vol hvol
                  (fun w hw => hlast w (List.mem_cons_of_mem _ hw))
                  (List.pairwise_cons.mp hpw).2
                  (fun w hw => h0 w (List.mem_cons_of_mem _ hw)) s hs
              · rw [hflag] at hs
                simp only [ite_true] at hs
                have hvlast : last ≤ v := hlast v (by simp)
                have hcoeff : (0 : ℚ) ≤ 3.14159 * (d / 2) ^ 2 :=
                  mul_nonneg (by norm_num) (sq_nonneg _)
                have hvol2 : 0 ≤ vol + 3.14159 * (d / 2) ^ 2 * (v - last) :=
                  add_nonneg hvol (mul_nonneg hcoeff (by linarith))
                exact ih true v _ hvol2
                  (fun w hw => (List.pairwise_cons.mp hpw).1 w hw)
                  (List.pairwise_cons.mp hpw).2
                  (fun w hw => h0 w (List.mem_cons_of_mem _ hw)) s hs

theorem nonSupportLoop_nonneg (d : ℚ) :
    ∀ (lines : List (List Char)) (flag : Bool) (last vol : ℚ),
    0 ≤ vol →
    (∀ v ∈ extrusionValues lines, last ≤ v) →
    (extrusionValues lines).Pairwise (· ≤ ·) →
    (∀ v ∈ extrusionValues lines, 0 ≤ v) →
    ∀ n, nonSupportLoop d lines flag last vol = .ok n → 0 ≤ n := by
  intro lines
  induction lines with
  | nil =>
      intro flag last vol hvol _ _ _ n hn
      simp only [nonSupportLoop, Except.ok.injEq] at hn
      exact hn ▸ hvol
  | cons line rest ih =>
      intro flag last vol hvol hlast hpw h0 n hn
      cases hg : g1Search (pyStrip line) with
      | none =>
          have hval : extrusionValues (line :: rest) = extrusionValues rest := by
            simp [extrusionValues, List.filterMap_cons, hg]
          rw [hval] at hlast hpw h0
          simp only [nonSupportLoop, hg] at hn
          exact ih (updFlag (pyStrip line) flag) last vol hvol hlast hpw h0 n hn
      | some g =>
          cases hv : pyFloat? g with
          | none =>
              have hval : extrusionValues (line :: rest) = extrusionValues rest := by
                simp [extrusionValues, List.filterMap_cons, hg, hv]
              rw [hval] at hlast hpw h0
              simp only [nonSupportLoop, hg, hv] at hn
              cases hflag : updFlag (pyStrip line) flag
              · rw [hflag] at hn
                simp at hn
              · rw [hflag] at hn
                simp only [ite_true] at hn
                exact ih true last vol hvol hlast hpw h0 n hn
          | some v =>
              have hval : extrusionValues (line :: rest) = v :: extrusionValues rest := by
                simp [extrusionValues, List.filterMap_cons, hg, hv]
              rw [hval] at hlast hpw h0
              simp only [nonSupportLoop, hg, hv] at hn
              cases hflag : updFlag (pyStrip line) flag
              · rw [hflag] at hn
                simp only [Bool.false_eq_true, ite_false] at hn
                have hvlast : last ≤ v := hlast v (by simp)
                have hcoeff : (0 : ℚ) ≤ 3.14159 * (d / 2) ^ 2 :=
                  mul_nonneg (by norm_num) (sq_nonneg _)
                have hvol2 : 0 ≤ vol + 3.14159 * (d / 2) ^ 2 * (v - last) :=
                  add_nonneg hvol (mul_nonneg hcoeff (by linarith))
                exact ih false v _ hvol2
                  (fun w hw => (List.pairwise_cons.mp hpw).1 w hw)
                  (List.pairwise_cons.mp hpw).2
                  (fun w hw => h0 w (List.mem_cons_of_mem _ hw)) n hn
              · rw [hflag] at hn
                simp only [ite_true] at hn
                exact ih true last vol hvol
                  (fun w hw => hlast w (List.mem_cons_of_mem _ hw))
                  (List.pairwise_cons.mp hpw).2
                  (fun w hw => h0 w (List.mem_cons_of_mem _ hw)) n hn

theorem profileLoop_layer_missing :
    ∀ (lines : List (List Char)) (nd : Option ℚ),
    (∀ l ∈ lines, searchProfileKey layerKey (pyStrip l) = none) →
    (∀ l ∈ lines, Option.all (fun g => (pyFloat? g).isSome)
      (searchProfileKey nozzleKey (pyStrip l)) = true) →
    profileLoop lines nd none = .error .profileIncomplete := by
  intro lines
  induction lines with
  | nil => intro nd _ _; cases nd <;> rfl
  | cons line rest ih =>
      intro nd h1 h2
      have hlay := h1 line (by simp)
      have hnoz := h2 line (by simp)
      have h1r : ∀ l ∈ rest, searchProfileKey layerKey (pyStrip l) = none :=
        fun l hl => h1 l (List.mem_cons_of_mem _ hl)
      have h2r : ∀ l ∈ rest, Option.all (fun g => (pyFloat? g).isSome)
          (searchProfileKey nozzleKey (pyStrip l)) = true :=
        fun l hl => h2 l (List.mem_cons_of_mem _ hl)
      cases hg : searchProfileKey nozzleKey (pyStrip line) with
      | none =>
          simp only [profileLoop, profileUpdate, hg, hlay]
          cases nd
          · exact ih none h1r h2r
          · exact ih _ h1r h2r
      | some g =>
          rw [hg] at hnoz
          obtain ⟨v, hv⟩ := Option.isSome_iff_exists.mp (by simpa [Option.all] using hnoz)
          simp only [profileLoop, profileUpdate, hg, hlay, hv]
          exact ih (some v) h1r h2r

theorem profileLoop_nozzle_missing :
    ∀ (lines : List (List Char)) (lh : Option ℚ),
    (∀ l ∈ lines, searchProfileKey nozzleKey (pyStrip l) = none) →
    (∀ l ∈ lines, Option.all (fun g => (pyFloat? g).isSome)
      (searchProfileKey layerKey (pyStrip l)) = true) →
    profileLoop lines none lh = .error .profileIncomplete := by
  intro lines
  induction lines with
  | nil => intro lh _ _; cases lh <;> rfl
  | cons line rest ih =>
      intro lh h1 h2
      have hnoz := h1 line (by simp)
      have hlay := h2 line (by simp)
      have h1r : ∀ l ∈ rest, searchProfileKey nozzleKey (pyStrip l) = none :=
        fun l hl => h1 l (List.mem_cons_of_mem _ hl)
      have h2r : ∀ l ∈ rest, Option.all (fun g => (pyFloat? g).isSome)
          (searchProfileKey layerKey (pyStrip l)) = true :=
        fun l hl => h2 l (List.mem_cons_of_mem _ hl)
      cases hg : searchProfileKey layerKey (pyStrip line) with
      | none =>
          simp only [profileLoop, profileUpdate, hg, hnoz]
          cases lh
          · exact ih none h1r h2r
          · exact ih _ h1r h2r
      | some g =>
          rw [hg] at hlay
          obtain ⟨v, hv⟩ := Option.isSome_iff_exists.mp (by simpa [Option.all] using hlay)
          simp only [profileLoop, profileUpdate, hg, hnoz, hv]
          exact ih (some v) h1r h2r

theorem profileLoop_append_of_ok :
    ∀ (pre : List (List Char)) (nd lh : Option ℚ) (v : ℚ × ℚ)
      (rest : List (List Char)),
    ¬(nd.isSome = true ∧ lh.isSome = true) →
    profileLoop pre nd lh = .ok v →
    profileLoop (pre ++ rest) nd lh = .ok v := by
  intro pre
  induction pre with
  | nil =>
      intro nd lh v rest hns h
      cases nd <;> cases lh <;> simp_all [profileLoop]
  | cons line tl ih =>
      intro nd lh v rest hns h
      simp only [List.cons_append, profileLoop] at h ⊢
      cases hu1 : profileUpdate nozzleKey (pyStrip line) nd with
      | error e => rw [hu1] at h; simp at h
      | ok nd2 =>
          rw [hu1] at h
          cases hu2 : profileUpdate layerKey (pyStrip line) lh with
          | error e => rw [hu2] at h; simp at h
          | ok lh2 =>
              rw [hu2] at h
              cases nd2 with
              | none =>
                  cases lh2 with
                  | none => exact ih none none v rest (by simp) h
                  | some b => exact ih none (some b) v rest (by simp) h
              | some a =>
                  cases lh2 with
                  | none => exact ih (some a) none v rest (by simp) h
                  | some b => exact h

/-! ### Analyzer claim theorems -/

/-- C7 counterexample: on a gcode with a non-support move `E10` followed by a
support-region move `E15`, the source's `estimate_support_volume` (which only
updates its previous cumulative value on support-region lines) charges the
whole `15` to support, while the spec's single-pass computation with one
shared previous value charges only `15 − 10 = 5`: with nozzle diameter 2 the
totals differ (`15 × 3.14159` vs `5 × 3.14159`), so the two source functions
do not compute the spec's single-pass totals. -/
theorem c7_counterexample_shared_previous_value :
    estimate_support_volume c7Gcode 2 (1/5) = .ok (4712385/100000) ∧
    specSinglePassVolumes c7Gcode 2 = .ok (1570795/100000, 3141590/100000) ∧
    (4712385/100000 : ℚ) ≠ 1570795/100000 := by
  refine ⟨by with_unfolding_all rfl, by with_unfolding_all rfl,
    by with_unfolding_all decide⟩

/-- C7 amended: the two estimation functions together compute a single-pass
two-accumulator sweep in which each region keeps its OWN previous cumulative
extrusion value (updated only on lines attributed to that region) — for every
gcode whose extrusion captures all parse, the pair of source results coincides
with `pairedRegionVolumes`. -/
theorem c7_amended_per_region_single_pass (lines : List (List Char)) (d lh : ℚ)
    (hwf : WellFormedGcode lines) :
    ∃ s n, pairedRegionVolumes lines d = .ok (s, n) ∧
      estimate_support_volume lines d lh = .ok s ∧
      estiamte_non_support_volume lines d lh = .ok n := by
  obtain ⟨a, b, h1, h2, h3⟩ := pairedRegionLoop_eq d lines false 0 0 0 0 hwf
  exact ⟨a, b, h3, h1, h2⟩

/-- C7 amended witness: the per-region single pass agrees with the two source
functions on the counterexample gcode. -/
theorem c7_amended_witness :
    ∃ s n, pairedRegionVolumes c7Gcode 2 = .ok (s, n) ∧
      estimate_support_volume c7Gcode 2 (1/5) = .ok s ∧
      estiamte_non_support_volume c7Gcode 2 (1/5) = .ok n :=
  c7_amended_per_region_single_pass c7Gcode 2 (1/5) (by with_unfolding_all decide)

/-- C8: profile extraction scans case-insensitively and whitespace-tolerantly
(the spec's example and a case/spacing variant both yield exactly
(0.4, 0.2)); when either comment never occurs (and the other's captures, if
any, parse), the file ends before both values are found and the scan ends in
`ProfileIncompleteError`; and the scan stops once both values are found —
appending further lines (even ones that would rebind the values) cannot
change an already-successful result. -/
theorem c8_profile_extraction :
    (estimate_nozzle_and_layer_height profileExample = .ok (0.4, 0.2)) ∧
    (estimate_nozzle_and_layer_height profileExampleVariant = .ok (0.4, 0.2)) ∧
    (∀ lines, (∀ l ∈ lines, searchProfileKey layerKey (pyStrip l) = none) →
      (∀ l ∈ lines, Option.all (fun g => (pyFloat? g).isSome)
        (searchProfileKey nozzleKey (pyStrip l)) = true) →
      estimate_nozzle_and_layer_height lines = .error .profileIncomplete) ∧
    (∀ lines, (∀ l ∈ lines, searchProfileKey nozzleKey (pyStrip l) = none) →
      (∀ l ∈ lines, Option.all (fun g => (pyFloat? g).isSome)
        (searchProfileKey layerKey (pyStrip l)) = true) →
      estimate_nozzle_and_layer_height lines = .error .profileIncomplete) ∧
    (∀ pre rest v, estimate_nozzle_and_layer_height pre = .ok v →
      estimate_nozzle_and_layer_height (pre ++ rest) = .ok v) := by
  refine ⟨by with_unfolding_all rfl, by with_unfolding_all rfl,
    fun lines h1 h2 => profileLoop_layer_missing lines none h1 h2,
    fun lines h1 h2 => profileLoop_nozzle_missing lines none h1 h2,
    fun pre rest v h => profileLoop_append_of_ok pre none none v rest (by simp) h⟩

/-- C8 witness: a gcode with no profile comments, one with only the nozzle
comment, and one with only the layer comment all raise
`ProfileIncompleteError`; appending an extra nozzle comment after the
complete example does not change the (0.4, 0.2) result. -/
theorem c8_witness :
    estimate_nozzle_and_layer_height ["hello world".toList] = .error .profileIncomplete ∧
    estimate_nozzle_and_layer_height ["; nozzle_diameter = 0.4".toList]
      = .error .profileIncomplete ∧
    estimate_nozzle_and_layer_height ["; layer_height = 0.2".toList]
      = .error .profileIncomplete ∧
    estimate_nozzle_and_layer_height (profileExample ++ ["; nozzle_diameter = 9".toList])
      = .ok (0.4, 0.2) := by
  refine ⟨?_, ?_, ?_, ?_⟩
  · exact c8_profile_extraction.2.2.1 ["hello world".toList] (by decide) (by decide)
  · exact c8_profile_extraction.2.2.1 ["; nozzle_diameter = 0.4".toList]
      (by decide) (by with_unfolding_all decide)
  · exact c8_profile_extraction.2.2.2.1 ["; layer_height = 0.2".toList]
      (by decide) (by with_unfolding_all decide)
  · exact c8_profile_extraction.2.2.2.2 profileExample ["; nozzle_diameter = 9".toList]
      (0.4, 0.2) c8_profile_extraction.1

/-- C9: whenever the profile lookup and both volume passes succeed, the
support-fraction computation returns `support / (support + non_support)` when
the total is non-zero, and raises `ZeroVolumeError` when the total is exactly
zero — over exact rationals there is no NaN and no silent zero. -/
theorem c9_fraction_zero_check (lines : List (List Char)) (nd lh s n : ℚ)
    (hp : estimate_nozzle_and_layer_height lines = .ok (nd, lh))
    (hs : estimate_support_volume lines nd lh = .ok s)
    (hn : estiamte_non_support_volume lines nd lh = .ok n) :
    (s + n = 0 → estimate_fraction_of_support_material lines = .error .zeroVolume) ∧
    (s + n ≠ 0 → estimate_fraction_of_support_material lines = .ok (s / (s + n))) := by
  constructor
  · intro h
    simp only [estimate_fraction_of_support_material, hp, hs, hn, if_pos h]
  · intro h
    simp only [estimate_fraction_of_support_material, hp, hs, hn, if_neg h]

/-- C9 witness: a gcode with a profile but no extrusion raises
`ZeroVolumeError`; a gcode with support and non-support moves returns the
exact ratio 3/5. -/
theorem c9_witness :
    estimate_fraction_of_support_material degenerateGcode = .error .zeroVolume ∧
    estimate_fraction_of_support_material fractionGcode = .ok (3/5) := by
  constructor
  · exact (c9_fraction_zero_check degenerateGcode 0.4 0.2 0 0
      (by with_unfolding_all rfl) (by with_unfolding_all rfl)
      (by with_unfolding_all rfl)).1 (by norm_num)
  · have h := (c9_fraction_zero_check fractionGcode 2 0.2 (4712385/100000)
      (3141590/100000) (by with_unfolding_all rfl) (by with_unfolding_all rfl)
      (by with_unfolding_all rfl)).2 (by norm_num)
    rw [h]
    norm_num

/-- C10: under the stated absolute-extrusion precondition — every cumulative
extrusion value non-negative and the values non-decreasing in line order —
both volume estimates are non-negative whenever they return, and any returned
support fraction lies in [0, 1]. -/
theorem c10_volume_nonneg_fraction_bounds (lines : List (List Char)) (d lh : ℚ)
    (h0 : ∀ v ∈ extrusionValues lines, 0 ≤ v)
    (hmono : (extrusionValues lines).Chain' (· ≤ ·)) :
    (∀ s, estimate_support_volume lines d lh = .ok s → 0 ≤ s) ∧
    (∀ n, estiamte_non_support_volume lines d lh = .ok n → 0 ≤ n) ∧
    (∀ f, estimate_fraction_of_support_material lines = .ok f → 0 ≤ f ∧ f ≤ 1) := by
  have hpw : (extrusionValues lines).Pairwise (· ≤ ·) :=
    List.chain'_iff_pairwise.mp hmono
  refine ⟨fun s hs => supportLoop_nonneg d lines false 0 0 le_rfl h0 hpw h0 s hs,
    fun n hn => nonSupportLoop_nonneg d lines false 0 0 le_rfl h0 hpw h0 n hn, ?_⟩
  intro f hf
  unfold estimate_fraction_of_support_material at hf
  cases hp : estimate_nozzle_and_layer_height lines with
  | error e => simp only [hp] at hf; exact absurd hf (by simp)
  | ok p =>
      obtain ⟨nd, lh2⟩ := p
      simp only [hp] at hf
      cases hsv : estimate_support_volume lines nd lh2 with
      | error e => simp only [hsv] at hf; exact absurd hf (by simp)
      | ok s =>
          simp only [hsv] at hf
          cases hnv : estiamte_non_support_volume lines nd lh2 with
          | error e => simp only [hnv] at hf; exact absurd hf (by simp)
          | ok n =>
              simp only [hnv] at hf
              have hs : 0 ≤ s := supportLoop_nonneg nd lines false 0 0 le_rfl h0 hpw h0 s hsv
              have hn : 0 ≤ n := nonSupportLoop_nonneg nd lines false 0 0 le_rfl h0 hpw h0 n hnv
              by_cases hz : s + n = 0
              · rw [if_pos hz] at hf; simp at hf
              · rw [if_neg hz] at hf
                simp only [Except.ok.injEq] at hf
                subst hf
                have hpos : 0 < s + n := lt_of_le_of_ne (add_nonneg hs hn) (Ne.symm hz)
                exact ⟨div_nonneg hs (le_of_lt hpos),
                  (div_le_one hpos).mpr (le_add_of_nonneg_right hn)⟩

/-- C10 witness: on the concrete gcode with values 10 ≤ 15 the returned
fraction 3/5 lies in [0, 1]. -/
theorem c10_witness : (0 : ℚ) ≤ 3/5 ∧ (3 : ℚ)/5 ≤ 1 := by
  have hvals : extrusionValues fractionGcode = [10, 15] := by with_unfolding_all rfl
  refine (c10_volume_nonneg_fraction_bounds fractionGcode 2 (1/5) ?_ ?_).2.2 (3/5)
    (by with_unfolding_all rfl)
  · rw [hvals]; intro v hv; fin_cases hv <;> norm_num
  · rw [hvals]
    exact List.chain'_cons.mpr ⟨by norm_num, List.chain'_singleton _⟩

end AutoSlicer
